import Mathlib

/-!
Shallow embedding of `sqlmodel_crud` (file `src/sqlmodel_crud/crud_service.py`).

The repository offers a generic CRUD service wrapping a `sqlmodel` session.
We embed two layers of the code:

* the generic attribute layer (`_prepare_for_update`, `_apply_changes_to_item`),
  which works on pydantic attribute dictionaries (`model_dump(exclude_unset=True)`,
  `setattr`), modelled here as association lists from field names to values;
* the session layer, instantiated at the repository's own test model
  (`tests/database/player.py`: table `DbPlayer` with an auto-generated integer
  primary key `id` and a string field `name`), with the session modelled as the
  list of committed rows, an autoincrement counter, the staged (pending) items
  and deletions, and a flag telling whether the underlying store will accept
  the next commits.  Each operation returns its result (or raised error), the
  session state after the call, and a trace counting the `commit`, `refresh`
  and `rollback` calls issued to the session.

Python exceptions are modelled with an `Except`-style error component; the
class `CrudService` declares `__slots__ = ("_model", "_session")`, so reading
the attribute `self.db` (as `create_multiple` does) raises `AttributeError`.
-/

deriving instance DecidableEq for Except

namespace SqlmodelCrud

/-- A Python attribute value (as much structure as the claims need). -/
inductive Value where
  | vInt (i : Int)
  | vStr (s : String)
  | vNone
deriving DecidableEq, Repr

/-- An object's attribute dictionary: field name to value, in declaration order. -/
abbrev Attrs := List (String × Value)

/-- Python `getattr`: the value of the first attribute with the given name. -/
def getattr : Attrs → String → Option Value
  | [], _ => none
  | kv :: rest, k => if kv.1 == k then some kv.2 else getattr rest k

/-- Python `setattr`: replace the named attribute's value, adding it if absent. -/
def setattr : Attrs → String → Value → Attrs
  | [], k, v => [(k, v)]
  | kv :: rest, k, v => if kv.1 == k then (k, v) :: rest else kv :: setattr rest k v

/-- An update-input model (pydantic): every field of the model with its current
value, together with the names of the fields the caller explicitly set
(pydantic's tracked field set, which `model_dump(exclude_unset=True)` keys on). -/
structure UpdateData where
  fields : List (String × Value)
  fieldsSet : List String
deriving DecidableEq, Repr

/-- `CrudService._prepare_for_update`: the default hook returns
`data.model_dump(exclude_unset=True)`, i.e. the name-value pairs of exactly
the explicitly set fields. -/
def prepare_for_update (d : UpdateData) : List (String × Value) :=
  d.fields.filter (fun kv => d.fieldsSet.contains kv.1)

/-- `CrudService._apply_changes_to_item`: computes the changes with
`_prepare_for_update` and assigns each pair onto the item with `setattr`. -/
def apply_changes_to_item (item : Attrs) (d : UpdateData) : Attrs :=
  (prepare_for_update d).foldl (fun it kv => setattr it kv.1 kv.2) item

/-- An atomic primary-key component: Python `int` or `str`. -/
inductive Atomic where
  | int (i : Int)
  | str (s : String)
deriving DecidableEq, Repr

/-- The runtime shape of a value passed as a primary key to
`_format_primary_key`: atomic, sequence (`tuple`/`list`), mapping (`dict`),
or any other Python object (e.g. `None`, `float`, `set`), which none of the
`isinstance` checks accepts. -/
inductive PyKey where
  | atom (a : Atomic)
  | seq (elems : List Atomic)
  | map (pairs : List (String × Atomic))
  | other (descr : String)
deriving DecidableEq, Repr

/-- Python `str()` on an atomic key component. -/
def pyStrAtomic : Atomic → String
  | .int i => toString i
  | .str s => s

/-- Python `sep.join(parts)`: empty for no parts, else the first part followed
by separator-part pairs, accumulated left to right. -/
def pyJoin (sep : String) : List String → String
  | [] => ""
  | x :: xs => xs.foldl (fun acc y => acc ++ sep ++ y) x

/-- `CrudService._format_primary_key`: `str`/`int` keys render via `str()`,
`tuple`/`list` keys render as the `"|"`-join of their elements' `str()`,
`dict` keys render as the `"|"`-join of `f"{k}:{v}"` pairs, and any other
shape raises `ValueError("Unrecognized primary key type.")`. -/
def format_primary_key : PyKey → Except String String
  | .atom a => .ok (pyStrAtomic a)
  | .seq elems => .ok (pyJoin "|" (elems.map pyStrAtomic))
  | .map pairs => .ok (pyJoin "|" (pairs.map (fun kv => kv.1 ++ ":" ++ pyStrAtomic kv.2)))
  | .other _ => .error "Unrecognized primary key type."

/-- The test table model (`tests/database/player.py`): `DbPlayer` has an
auto-generated integer primary key `id` (absent until the first flush assigns
it) and a string field `name`. -/
structure DbPlayer where
  id : Option Nat
  name : String
deriving DecidableEq, Repr

/-- The creation input model `PlayerCreate`: just the `name` field. -/
structure PlayerCreate where
  name : String
deriving DecidableEq, Repr

/-- The update input model `PlayerUpdate`: the `name` field's value together
with pydantic's record of whether the caller explicitly set it. -/
structure PlayerUpdate where
  name : String
  nameSet : Bool
deriving DecidableEq, Repr

/-- `CrudService._prepare_for_create` at the player instantiation:
`model_validate` copies the input's fields into a fresh table model, whose
primary key keeps its default (absent until flushed). -/
def prepare_for_create (data : PlayerCreate) : DbPlayer :=
  { id := none, name := data.name }

/-- `CrudService._prepare_for_update` at the player instantiation:
`model_dump(exclude_unset=True)` on `PlayerUpdate` is the singleton mapping
when `name` was explicitly set and the empty mapping otherwise. -/
def prepare_for_update_player (d : PlayerUpdate) : Option String :=
  if d.nameSet then some d.name else none

/-- `CrudService._apply_changes_to_item` at the player instantiation:
assign each pair of the prepared changes onto the item. -/
def apply_changes_to_player (item : DbPlayer) (d : PlayerUpdate) : DbPlayer :=
  match prepare_for_update_player d with
  | some v => { item with name := v }
  | none => item

/-- Counts of the calls the service issued to the underlying session. -/
structure Trace where
  commitCalls : Nat
  refreshCalls : Nat
  rollbackCalls : Nat
deriving DecidableEq, Repr

/-- The empty trace. -/
def Trace.nil : Trace := ⟨0, 0, 0⟩

/-- Componentwise sum of traces of sequenced calls. -/
def Trace.add (t u : Trace) : Trace :=
  ⟨t.commitCalls + u.commitCalls, t.refreshCalls + u.refreshCalls,
    t.rollbackCalls + u.rollbackCalls⟩

/-- The state of the wrapped `sqlmodel` session: the committed rows in store
order, the autoincrement counter for the primary key, the staged additions and
deletions not yet flushed, and whether the underlying store will accept a
commit (false models a store that fails the transaction, e.g. a constraint
violation or lost connectivity). -/
structure SessionState where
  rows : List DbPlayer
  nextId : Nat
  pending : List DbPlayer
  pendingDeletes : List Nat
  commitOk : Bool
deriving DecidableEq, Repr

/-- `session.add_all(items)`: stage the items for the next flush. -/
def SessionState.addAll (s : SessionState) (items : List DbPlayer) : SessionState :=
  { s with pending := s.pending ++ items }

/-- `session.add(item)`: stage one item. -/
def SessionState.addOne (s : SessionState) (item : DbPlayer) : SessionState :=
  s.addAll [item]

/-- `session.rollback()`: discard staged additions and deletions. -/
def SessionState.rollback (s : SessionState) : SessionState :=
  { s with pending := [], pendingDeletes := [] }

/-- Writing one flushed object to the store: replace the row with the same
primary key if one exists, otherwise append the new row. -/
def writeRow (rows : List DbPlayer) (item : DbPlayer) : List DbPlayer :=
  if rows.any (fun r => r.id == item.id) then
    rows.map (fun r => if r.id == item.id then item else r)
  else rows ++ [item]

/-- The flush performed by `session.commit()`: assign the autoincrement key to
each staged item that lacks one (in staging order), write the staged items to
the store, apply the staged deletions, and clear the staging areas.  Also
returns the staged items with their newly assigned keys, since in Python the
flush mutates those very objects in place. -/
def SessionState.flush (s : SessionState) : SessionState × List DbPlayer :=
  let step := fun (acc : List DbPlayer × Nat) (item : DbPlayer) =>
    match item.id with
    | some _ => (acc.1 ++ [item], acc.2)
    | none => (acc.1 ++ [{ item with id := some acc.2 }], acc.2 + 1)
  let fl := s.pending.foldl step ([], s.nextId)
  let rows1 := fl.1.foldl writeRow s.rows
  let rows2 := rows1.filter (fun r =>
    match r.id with
    | some i => !(s.pendingDeletes.contains i)
    | none => true)
  ({ s with rows := rows2, nextId := fl.2, pending := [], pendingDeletes := [] }, fl.1)

/-- `session.commit()`: flush and persist, or fail with the store's error. -/
def SessionState.commit (s : SessionState) : Except String (SessionState × List DbPlayer) :=
  if s.commitOk then .ok s.flush else .error "database error"

/-- The service's error taxonomy (`exception.py`), plus the Python built-in
errors the code can raise: `AttributeError` (reading a missing slotted
attribute) and `ValueError`.  `commitFailed` keeps the chained cause
(`raise CommitFailed(msg) from e`). -/
inductive ServiceError where
  | notFound (msg : String)
  | multipleResultsFound (msg : String)
  | commitFailed (msg : String) (cause : String)
  | serviceException (msg : String)
  | attributeError (attr : String)
  | valueError (msg : String)
deriving DecidableEq, Repr

/-- What a service call produces: the returned value or raised error, the
session state after the call, and the trace of session calls it made. -/
structure OpResult (α : Type) where
  result : Except ServiceError α
  state : SessionState
  trace : Trace
deriving DecidableEq, Repr

/-- `CrudService._safe_commit`: try `session.commit()`; on failure roll the
session back and raise `CommitFailed(error_msg)` chained to the cause.  On
success it yields the flushed objects (their identities, keys now assigned). -/
def safe_commit (errorMsg : String) (s : SessionState) : OpResult (List DbPlayer) :=
  match s.commit with
  | .ok (s2, flushed) => ⟨.ok flushed, s2, ⟨1, 0, 0⟩⟩
  | .error cause => ⟨.error (.commitFailed errorMsg cause), s.rollback, ⟨1, 0, 1⟩⟩

/-- `session.get(model, pk)`: the committed row with the given key, if any. -/
def SessionState.getRow (s : SessionState) (pk : Nat) : Option DbPlayer :=
  s.rows.find? (fun r => r.id == some pk)

/-- `CrudService.get_by_pk`: direct key lookup via `session.get`. -/
def get_by_pk (pk : Nat) (s : SessionState) : Option DbPlayer :=
  s.getRow pk

/-- `CrudService.create`: convert via `_prepare_for_create`, `session.add`,
`_safe_commit("Commit failed.")`, then `session.refresh(db_item)` — the staged
object now carries its flush-assigned key, and refresh reloads it from the
store by that key. -/
def create (data : PlayerCreate) (s : SessionState) : OpResult DbPlayer :=
  let dbItem := prepare_for_create data
  let s1 := s.addOne dbItem
  let c := safe_commit "Commit failed." s1
  match c.result with
  | .error e => ⟨.error e, c.state, c.trace⟩
  | .ok flushed =>
    match (flushed.getLast?).bind (fun it => it.id.bind (fun i => c.state.getRow i)) with
    | some item => ⟨.ok item, c.state, c.trace.add ⟨0, 1, 0⟩⟩
    | none => ⟨.error (.serviceException "refresh failed"), c.state, c.trace.add ⟨0, 1, 0⟩⟩

/-- `CrudService.create_multiple`: after converting the inputs with
`_prepare_for_create`, the code runs `self.db.add_all(db_items)` — but the
class declares `__slots__ = ("_model", "_session")` and never defines any
attribute `db`, so Python raises `AttributeError` right there: nothing is
staged, no commit is issued, and `_safe_commit` is never reached. -/
def create_multiple (datalist : List PlayerCreate) (s : SessionState) :
    OpResult (List DbPlayer) :=
  let _dbItems := datalist.map prepare_for_create
  ⟨.error (.attributeError "db"), s, Trace.nil⟩

/-- The typed argument of `add_to_session`: creation inputs, or pairs of a
loaded item and its update input. -/
inductive AddInput where
  | createItems (items : List PlayerCreate)
  | updateItems (items : List (DbPlayer × PlayerUpdate))
deriving DecidableEq, Repr

/-- `CrudService.add_to_session`: prepare every item per the requested
operation, stage them all with one `session.add_all`, and commit through
`_safe_commit` exactly when `commit` is true (even for an empty list).  It
never refreshes the staged items; on a successful commit it returns them with
their flush-assigned keys (the flush mutated those objects in place). -/
def add_to_session (input : AddInput) (commit : Bool) (s : SessionState) :
    OpResult (List DbPlayer) :=
  let dbItems :=
    match input with
    | .createItems items => items.map prepare_for_create
    | .updateItems items => items.map (fun p => apply_changes_to_player p.1 p.2)
  let s1 := s.addAll dbItems
  if commit then
    let c := safe_commit "Commit failed." s1
    match c.result with
    | .error e => ⟨.error e, c.state, c.trace⟩
    | .ok flushed => ⟨.ok (flushed.drop s.pending.length), c.state, c.trace⟩
  else ⟨.ok dbItems, s1, Trace.nil⟩

/-- `CrudService.delete_by_pk`: look the key up with `get_by_pk`; on a miss
raise `NotFound(self._format_primary_key(pk))` — for the player service's
integer key that message is `str(pk)` — touching neither the session nor the
store; on a hit stage the deletion and `_safe_commit("Failed to delete item.")`. -/
def delete_by_pk (pk : Nat) (s : SessionState) : OpResult Unit :=
  match get_by_pk pk s with
  | none => ⟨.error (.notFound (toString pk)), s, Trace.nil⟩
  | some _ =>
    let s1 := { s with pendingDeletes := s.pendingDeletes ++ [pk] }
    let c := safe_commit "Failed to delete item." s1
    match c.result with
    | .error e => ⟨.error e, c.state, c.trace⟩
    | .ok _ => ⟨.ok (), c.state, c.trace⟩

/-- `CrudService.update_item`: apply the changes to the item, `session.add`,
`_safe_commit("Update failed.")`, then `session.refresh(item)` by the item's
key and return it. -/
def update_item (item : DbPlayer) (data : PlayerUpdate) (s : SessionState) :
    OpResult DbPlayer :=
  let item1 := apply_changes_to_player item data
  let s1 := s.addOne item1
  let c := safe_commit "Update failed." s1
  match c.result with
  | .error e => ⟨.error e, c.state, c.trace⟩
  | .ok _ =>
    match item1.id.bind (fun i => c.state.getRow i) with
    | some r => ⟨.ok r, c.state, c.trace.add ⟨0, 1, 0⟩⟩
    | none => ⟨.error (.serviceException "refresh failed"), c.state, c.trace.add ⟨0, 1, 0⟩⟩

/-- `CrudService.update`: resolve the key with `get_by_pk`; on a miss raise
`NotFound(self._format_primary_key(pk))`, else delegate to `update_item`. -/
def update (pk : Nat) (data : PlayerUpdate) (s : SessionState) : OpResult DbPlayer :=
  match get_by_pk pk s with
  | none => ⟨.error (.notFound (toString pk)), s, Trace.nil⟩
  | some item => update_item item data s

/-- `CrudService.one`: execute the filtered select (the matching committed
rows in store order) and take `.one()`: `NoResultFound` on zero rows is
wrapped into `NotFound`, `MultipleResultsFound` on two or more rows is
wrapped into the service's `MultipleResultsFound`. -/
def one (p : DbPlayer → Bool) (s : SessionState) : Except ServiceError DbPlayer :=
  match s.rows.filter p with
  | [] => .error (.notFound "No items matched the where clause")
  | [x] => .ok x
  | _ => .error (.multipleResultsFound "Multiple items matched the where clause.")

/-- `CrudService.get_by_pks`: `select(model).where(model.id.in_(pks))` then
`.all()` — the committed rows whose key is among `pks`, in store order.  The
declared Python return type is `Optional`, hence the `Option` here; the body
always returns the (possibly empty) sequence `.all()` yields. -/
def get_by_pks (pks : List Nat) (s : SessionState) : Option (List DbPlayer) :=
  some (s.rows.filter (fun r =>
    match r.id with
    | some i => pks.contains i
    | none => false))

/-- Whether a stored key is below the autoincrement counter. -/
def idBelow (o : Option Nat) (n : Nat) : Bool :=
  match o with
  | some i => i < n
  | none => true

/-- A quiescent, well-formed session: nothing staged, and every committed
row's key lies below the autoincrement counter (what a real autoincrement
store guarantees). -/
def SessionState.WF (s : SessionState) : Prop :=
  s.pending = [] ∧ s.pendingDeletes = [] ∧ ∀ r ∈ s.rows, idBelow r.id s.nextId = true

theorem pyJoin_eq_intercalate (sep : String) (l : List String) :
    pyJoin sep l = String.intercalate sep l := by
  cases l with
  | nil => rfl
  | cons x xs =>
    show xs.foldl (fun acc y => acc ++ sep ++ y) x = String.intercalate.go x sep xs
    induction xs generalizing x with
    | nil => rfl
    | cons y ys ih => exact ih (x ++ sep ++ y)

theorem getattr_setattr_self (a : Attrs) (k : String) (v : Value) :
    getattr (setattr a k v) k = some v := by
  induction a with
  | nil => simp [setattr, getattr]
  | cons kv rest ih =>
    by_cases h : kv.1 = k
    · simp [setattr, getattr, h]
    · simp [setattr, getattr, h, ih]

theorem getattr_setattr_ne (a : Attrs) (k k2 : String) (v : Value) (h : k2 ≠ k) :
    getattr (setattr a k v) k2 = getattr a k2 := by
  induction a with
  | nil => simp [setattr, getattr, Ne.symm h]
  | cons kv rest ih =>
    by_cases hk : kv.1 = k
    · simp [setattr, getattr, hk, Ne.symm h]
    · by_cases hk2 : kv.1 = k2
      · simp [setattr, getattr, hk, hk2, h]
      · simp [setattr, getattr, hk, hk2, ih]

theorem getattr_foldl_setattr_of_not_mem (changes : List (String × Value)) (item : Attrs)
    (k : String) (h : ∀ kv ∈ changes, kv.1 ≠ k) :
    getattr (changes.foldl (fun it kv => setattr it kv.1 kv.2) item) k = getattr item k := by
  induction changes generalizing item with
  | nil => rfl
  | cons c rest ih =>
    rw [List.foldl_cons, ih _ (fun kv hm => h kv (List.mem_cons_of_mem _ hm)),
      getattr_setattr_ne _ _ _ _ (Ne.symm (h c (List.mem_cons_self c rest)))]

theorem getattr_foldl_setattr_of_mem (changes : List (String × Value)) (item : Attrs)
    (k : String) (v : Value) (hm : (k, v) ∈ changes)
    (hnd : (changes.map Prod.fst).Nodup) :
    getattr (changes.foldl (fun it kv => setattr it kv.1 kv.2) item) k = some v := by
  induction changes generalizing item with
  | nil => cases hm
  | cons c rest ih =>
    rw [List.foldl_cons]
    rcases List.mem_cons.mp hm with h1 | h2
    · have hout : c.1 ∉ rest.map Prod.fst := (List.nodup_cons.mp hnd).1
      have hrest : ∀ kv ∈ rest, kv.1 ≠ k := by
        intro kv hkv heq
        apply hout
        have h3 : kv.1 ∈ rest.map Prod.fst := List.mem_map_of_mem Prod.fst hkv
        rw [← h1]
        dsimp only
        rw [← heq]
        exact h3
      rw [getattr_foldl_setattr_of_not_mem rest _ k hrest, ← h1, getattr_setattr_self]
    · exact ih _ h2 (List.nodup_cons.mp hnd).2

/-- C2: for every item and every update input, `_apply_changes_to_item`
(through `_prepare_for_update`, i.e. `model_dump(exclude_unset=True)`) assigns
exactly the explicitly-set fields onto the item and leaves every field the
caller did not set at its pre-update value; unset fields are never overwritten
with defaults or nulls.  (The update model's fields are pairwise distinct, as
pydantic guarantees.) -/
theorem update_applies_exactly_set_fields (item : Attrs) (d : UpdateData)
    (hnd : (d.fields.map Prod.fst).Nodup) :
    (∀ k, k ∉ d.fieldsSet → getattr (apply_changes_to_item item d) k = getattr item k) ∧
    (∀ k v, (k, v) ∈ prepare_for_update d →
      getattr (apply_changes_to_item item d) k = some v) := by
  constructor
  · intro k hk
    apply getattr_foldl_setattr_of_not_mem
    intro kv hkv heq
    have hmem := (List.mem_filter.mp hkv).2
    rw [heq] at hmem
    exact hk (by simpa using hmem)
  · intro k v hm
    exact getattr_foldl_setattr_of_mem _ item k v hm
      (List.Nodup.sublist (List.Sublist.map Prod.fst (List.filter_sublist _)) hnd)

/-- Witness for C2 at a concrete item and a concrete partially-set update. -/
theorem update_applies_exactly_set_fields_witness :
    (([("name", Value.vStr "Ann2"), ("age", Value.vInt 0)].map Prod.fst).Nodup) ∧
    getattr (apply_changes_to_item [("id", Value.vInt 1), ("name", Value.vStr "Ann")]
      ⟨[("name", Value.vStr "Ann2"), ("age", Value.vInt 0)], ["name"]⟩) "id" =
      getattr [("id", Value.vInt 1), ("name", Value.vStr "Ann")] "id" ∧
    getattr (apply_changes_to_item [("id", Value.vInt 1), ("name", Value.vStr "Ann")]
      ⟨[("name", Value.vStr "Ann2"), ("age", Value.vInt 0)], ["name"]⟩) "name" =
      some (Value.vStr "Ann2") :=
  ⟨by decide,
    (update_applies_exactly_set_fields [("id", Value.vInt 1), ("name", Value.vStr "Ann")]
      ⟨[("name", Value.vStr "Ann2"), ("age", Value.vInt 0)], ["name"]⟩ (by decide)).1
      "id" (by decide),
    (update_applies_exactly_set_fields [("id", Value.vInt 1), ("name", Value.vStr "Ann")]
      ⟨[("name", Value.vStr "Ann2"), ("age", Value.vInt 0)], ["name"]⟩ (by decide)).2
      "name" (Value.vStr "Ann2") (by decide)⟩

/-- C9: `_format_primary_key` renders an atomic string key verbatim and an
atomic int key as its decimal `str()`, renders a sequence (tuple/list) key as
the `"|"`-joined element values, renders a mapping key as `"|"`-joined
`name:value` pairs, and raises `ValueError` (invalid argument) for every key
of any other shape. -/
theorem format_primary_key_spec :
    (∀ s, format_primary_key (.atom (.str s)) = .ok s) ∧
    (∀ i, format_primary_key (.atom (.int i)) = .ok (toString i)) ∧
    (∀ elems, format_primary_key (.seq elems) =
      .ok (String.intercalate "|" (elems.map pyStrAtomic))) ∧
    (∀ pairs, format_primary_key (.map pairs) =
      .ok (String.intercalate "|" (pairs.map (fun kv => kv.1 ++ ":" ++ pyStrAtomic kv.2)))) ∧
    (∀ d, format_primary_key (.other d) = .error "Unrecognized primary key type.") := by
  refine ⟨fun s => rfl, fun i => rfl, fun elems => ?_, fun pairs => ?_, fun d => rfl⟩
  · rw [format_primary_key, pyJoin_eq_intercalate]
  · rw [format_primary_key, pyJoin_eq_intercalate]

/-- C1 (code bug): `create_multiple` is supposed to convert the inputs, stage
them all, commit once and return them — but the shipped code reads `self.db`,
an attribute the class cannot have (`__slots__` lists only `_model` and
`_session`), so the call raises `AttributeError`: nothing is staged, no commit
is issued, the session is untouched and no list is returned. -/
theorem create_multiple_raises_attribute_error :
    create_multiple [⟨"Ann"⟩, ⟨"Bob"⟩] ⟨[], 1, [], [], true⟩ =
      ⟨.error (.attributeError "db"), ⟨[], 1, [], [], true⟩, Trace.nil⟩ := rfl

/-- C3 (code bug): on a session whose store refuses the commit, `create`,
`update_item`, `delete_by_pk` and `add_to_session` (commit requested) all go
through `_safe_commit`, which rolls back once and raises `CommitFailed` with
the cause chained — but `create_multiple`, also a committing operation per the
spec, never reaches `_safe_commit`: it dies on the missing `self.db` attribute
with `AttributeError`, performing no rollback and raising no `CommitFailed`. -/
theorem commit_failure_rollback_paths :
    (create ⟨"Ann"⟩ ⟨[], 1, [], [], false⟩).result =
      .error (.commitFailed "Commit failed." "database error") ∧
    (create ⟨"Ann"⟩ ⟨[], 1, [], [], false⟩).trace.rollbackCalls = 1 ∧
    (update_item ⟨some 1, "Ann"⟩ ⟨"Bob", true⟩ ⟨[⟨some 1, "Ann"⟩], 2, [], [], false⟩).result =
      .error (.commitFailed "Update failed." "database error") ∧
    (update_item ⟨some 1, "Ann"⟩ ⟨"Bob", true⟩
      ⟨[⟨some 1, "Ann"⟩], 2, [], [], false⟩).trace.rollbackCalls = 1 ∧
    (delete_by_pk 1 ⟨[⟨some 1, "Ann"⟩], 2, [], [], false⟩).result =
      .error (.commitFailed "Failed to delete item." "database error") ∧
    (delete_by_pk 1 ⟨[⟨some 1, "Ann"⟩], 2, [], [], false⟩).trace.rollbackCalls = 1 ∧
    (add_to_session (.createItems []) true ⟨[], 1, [], [], false⟩).result =
      .error (.commitFailed "Commit failed." "database error") ∧
    (add_to_session (.createItems []) true ⟨[], 1, [], [], false⟩).trace.rollbackCalls = 1 ∧
    (create_multiple [⟨"Ann"⟩] ⟨[], 5, [], [], false⟩).result =
      .error (.attributeError "db") ∧
    (create_multiple [⟨"Ann"⟩] ⟨[], 5, [], [], false⟩).trace = Trace.nil :=
  ⟨rfl, rfl, rfl, rfl, rfl, rfl, rfl, rfl, rfl, rfl⟩

/-- C5: `add_to_session` issues exactly one `session.commit()` when `commit`
is true — even for an empty item list — and none when `commit` is false; in
no case does it issue a `session.refresh` on any staged item. -/
theorem add_to_session_commit_calls (input : AddInput) (commit : Bool) (s : SessionState) :
    (add_to_session input commit s).trace.commitCalls = (if commit then 1 else 0) ∧
    (add_to_session input commit s).trace.refreshCalls = 0 := by
  cases commit with
  | false => exact ⟨rfl, rfl⟩
  | true =>
    cases hok : s.commitOk <;>
      simp [add_to_session, safe_commit, SessionState.commit, SessionState.addAll, hok]

/-- C6: `one` raises `NotFound` when zero rows match the filter, returns the
single matching row when exactly one row matches, and raises
`MultipleResultsFound` when two or more rows match. -/
theorem one_zero_one_many (p : DbPlayer → Bool) (s : SessionState) :
    (s.rows.filter p = [] →
      one p s = .error (.notFound "No items matched the where clause")) ∧
    (∀ x, s.rows.filter p = [x] → one p s = .ok x) ∧
    (2 ≤ (s.rows.filter p).length →
      one p s = .error (.multipleResultsFound "Multiple items matched the where clause.")) := by
  refine ⟨fun h => by rw [one, h], fun x h => by rw [one, h], fun h => ?_⟩
  rw [one]
  cases hm : s.rows.filter p with
  | nil => rw [hm] at h; simp at h
  | cons a t =>
    cases t with
    | nil => rw [hm] at h; simp at h
    | cons b t2 => rfl

/-- Witness for C6 on concrete stores with zero, one and two matches. -/
theorem one_zero_one_many_witness :
    ((SessionState.mk [] 1 [] [] true).rows.filter (fun r => r.name == "Ann") = [] ∧
      one (fun r => r.name == "Ann") ⟨[], 1, [], [], true⟩ =
        .error (.notFound "No items matched the where clause")) ∧
    ((SessionState.mk [⟨some 1, "Ann"⟩] 2 [] [] true).rows.filter
        (fun r => r.name == "Ann") = [⟨some 1, "Ann"⟩] ∧
      one (fun r => r.name == "Ann") ⟨[⟨some 1, "Ann"⟩], 2, [], [], true⟩ =
        .ok ⟨some 1, "Ann"⟩) ∧
    (2 ≤ ((SessionState.mk [⟨some 1, "Ann"⟩, ⟨some 2, "Ann"⟩] 3 [] [] true).rows.filter
        (fun r => r.name == "Ann")).length ∧
      one (fun r => r.name == "Ann") ⟨[⟨some 1, "Ann"⟩, ⟨some 2, "Ann"⟩], 3, [], [], true⟩ =
        .error (.multipleResultsFound "Multiple items matched the where clause.")) :=
  ⟨⟨by decide, (one_zero_one_many (fun r => r.name == "Ann") ⟨[], 1, [], [], true⟩).1
      (by decide)⟩,
   ⟨by decide, (one_zero_one_many (fun r => r.name == "Ann")
      ⟨[⟨some 1, "Ann"⟩], 2, [], [], true⟩).2.1 ⟨some 1, "Ann"⟩ (by decide)⟩,
   ⟨by decide, (one_zero_one_many (fun r => r.name == "Ann")
      ⟨[⟨some 1, "Ann"⟩, ⟨some 2, "Ann"⟩], 3, [], [], true⟩).2.2 (by decide)⟩⟩

/-- C7: `delete_by_pk` on a key with no matching row raises `NotFound`
carrying the `_format_primary_key` rendering of the key (for the integer key,
`str(pk)`), and performs no store mutation: nothing is staged, deleted or
committed and the session state is returned unchanged. -/
theorem delete_by_pk_missing_key (pk : Nat) (s : SessionState)
    (h : get_by_pk pk s = none) :
    delete_by_pk pk s = ⟨.error (.notFound (toString pk)), s, Trace.nil⟩ ∧
    format_primary_key (.atom (.int (Int.ofNat pk))) = .ok (toString pk) := by
  constructor
  · rw [delete_by_pk, h]
  · rfl

/-- Witness for C7 on a concrete store that lacks the key. -/
theorem delete_by_pk_missing_key_witness :
    get_by_pk 7 ⟨[⟨some 1, "Ann"⟩], 2, [], [], true⟩ = none ∧
    (delete_by_pk 7 ⟨[⟨some 1, "Ann"⟩], 2, [], [], true⟩ =
        ⟨.error (.notFound "7"), ⟨[⟨some 1, "Ann"⟩], 2, [], [], true⟩, Trace.nil⟩ ∧
      format_primary_key (.atom (.int 7)) = .ok "7") :=
  ⟨by decide, delete_by_pk_missing_key 7 ⟨[⟨some 1, "Ann"⟩], 2, [], [], true⟩ (by decide)⟩

/-- C8: `get_by_pks` returns exactly the committed rows whose primary key is
among the requested keys, in store order (the result is a sublist of the
store), and requested keys with no matching row are silently omitted — they
are not reported and cause no error. -/
theorem get_by_pks_exactly_existing (pks : List Nat) (s : SessionState) :
    ∃ l, get_by_pks pks s = some l ∧
      l.Sublist s.rows ∧
      (∀ r, r ∈ l ↔ r ∈ s.rows ∧ ∃ i, r.id = some i ∧ i ∈ pks) := by
  refine ⟨_, rfl, List.filter_sublist _, fun r => ?_⟩
  rw [List.mem_filter]
  constructor
  · rintro ⟨hr, hp⟩
    refine ⟨hr, ?_⟩
    cases hid : r.id with
    | none => rw [hid] at hp; cases hp
    | some i =>
      rw [hid] at hp
      exact ⟨i, rfl, by simpa using hp⟩
  · rintro ⟨hr, i, hid, hmem⟩
    refine ⟨hr, ?_⟩
    rw [hid]
    simpa using hmem

/-- C10: `get_by_pks` always returns a sequence — the empty sequence for an
empty key list — and never the none-value that its declared `Optional` return
type admits. -/
theorem get_by_pks_never_none (pks : List Nat) (s : SessionState) :
    (get_by_pks pks s).isSome = true ∧ get_by_pks [] s = some [] := by
  refine ⟨rfl, ?_⟩
  rw [get_by_pks]
  have hnil : (s.rows.filter (fun r =>
      match r.id with
      | some i => ([] : List Nat).contains i
      | none => false)) = [] :=
    List.filter_eq_nil_iff.mpr (fun a _ => by
      cases a.id <;> exact fun hp => Bool.noConfusion hp)
  rw [hnil]

theorem id_beq_false_of_bounded (rows : List DbPlayer) (n : Nat)
    (h : ∀ r ∈ rows, idBelow r.id n = true) :
    ∀ r ∈ rows, ¬((r.id == some n) = true) := by
  intro r hr hb
  have hbel := h r hr
  cases hid : r.id with
  | none => rw [hid] at hb; simp at hb
  | some i =>
    rw [hid] at hb hbel
    have h1 : i = n := by simpa using hb
    have h2 : i < n := by simpa [idBelow] using hbel
    omega

/-- C4: on a quiescent well-formed session whose store accepts the commit,
`create` returns an instance whose fields match the input and whose primary
key is populated (with the fresh autoincrement key), and `get_by_pk` with
that returned key yields an instance equal to the one `create` returned. -/
theorem create_then_get_by_pk (data : PlayerCreate) (s : SessionState)
    (hwf : s.WF) (hc : s.commitOk = true) :
    ∃ item : DbPlayer,
      (create data s).result = .ok item ∧
      item.id = some s.nextId ∧
      item.name = data.name ∧
      get_by_pk s.nextId (create data s).state = some item := by
  obtain ⟨rows, nid, pending, deletes, cok⟩ := s
  obtain ⟨hp, hd, hids⟩ := hwf
  dsimp only at hp hd hids hc ⊢
  subst hp; subst hd; subst hc
  have hfind : rows.find? (fun r => r.id == some nid) = none :=
    List.find?_eq_none.mpr (id_beq_false_of_bounded rows nid hids)
  have hany : rows.any (fun r => r.id == some nid) = false :=
    List.any_eq_false.mpr (id_beq_false_of_bounded rows nid hids)
  have hfil : ∀ (l : List DbPlayer), (l.filter (fun r =>
      match r.id with
      | some i => !(([] : List Nat).contains i)
      | none => true)) = l :=
    fun l => List.filter_eq_self.mpr (fun a _ => by cases a.id <;> rfl)
  have hwrite : writeRow rows ⟨some nid, data.name⟩ = rows ++ [⟨some nid, data.name⟩] := by
    rw [writeRow, if_neg]
    simp [hany]
  have hflush : SessionState.flush ⟨rows, nid, [⟨none, data.name⟩], [], true⟩ =
      (⟨rows ++ [⟨some nid, data.name⟩], nid + 1, [], [], true⟩,
        [⟨some nid, data.name⟩]) := by
    show ((⟨(writeRow rows ⟨some nid, data.name⟩).filter (fun r =>
        match r.id with
        | some i => !(([] : List Nat).contains i)
        | none => true), nid + 1, [], [], true⟩,
      [⟨some nid, data.name⟩]) : SessionState × List DbPlayer) = _
    rw [hwrite, hfil]
  have hcommitS : SessionState.commit ⟨rows, nid, [⟨none, data.name⟩], [], true⟩ =
      .ok (⟨rows ++ [⟨some nid, data.name⟩], nid + 1, [], [], true⟩,
        [⟨some nid, data.name⟩]) := by
    rw [SessionState.commit, if_pos rfl, hflush]
  have hcommit : safe_commit "Commit failed." ⟨rows, nid, [⟨none, data.name⟩], [], true⟩ =
      ⟨.ok [⟨some nid, data.name⟩],
        ⟨rows ++ [⟨some nid, data.name⟩], nid + 1, [], [], true⟩, ⟨1, 0, 0⟩⟩ := by
    unfold safe_commit
    rw [hcommitS]
  have hget : SessionState.getRow
      ⟨rows ++ [⟨some nid, data.name⟩], nid + 1, [], [], true⟩ nid =
      some ⟨some nid, data.name⟩ := by
    rw [SessionState.getRow, List.find?_append, hfind]
    simp
  have hstep : create data ⟨rows, nid, [], [], true⟩ =
      ⟨.ok ⟨some nid, data.name⟩,
        ⟨rows ++ [⟨some nid, data.name⟩], nid + 1, [], [], true⟩, ⟨1, 1, 0⟩⟩ := by
    unfold create
    simp only [prepare_for_create, SessionState.addOne, SessionState.addAll,
      List.nil_append]
    rw [hcommit]
    simp only [List.getLast?_singleton, Option.bind_some, Option.some_bind, hget]
    rfl
  refine ⟨⟨some nid, data.name⟩, ?_, rfl, rfl, ?_⟩
  · rw [hstep]
  · rw [hstep]
    show SessionState.getRow ⟨rows ++ [⟨some nid, data.name⟩], nid + 1, [], [], true⟩ nid =
      some ⟨some nid, data.name⟩
    exact hget

/-- Witness for C4 on a concrete empty well-formed session. -/
theorem create_then_get_by_pk_witness :
    (SessionState.WF ⟨[], 1, [], [], true⟩) ∧
    (SessionState.commitOk ⟨[], 1, [], [], true⟩ = true) ∧
    (∃ item : DbPlayer,
      (create ⟨"Ann"⟩ ⟨[], 1, [], [], true⟩).result = .ok item ∧
      item.id = some (SessionState.nextId ⟨[], 1, [], [], true⟩) ∧
      item.name = "Ann" ∧
      get_by_pk (SessionState.nextId ⟨[], 1, [], [], true⟩)
        (create ⟨"Ann"⟩ ⟨[], 1, [], [], true⟩).state = some item) :=
  ⟨⟨rfl, rfl, by decide⟩, rfl,
    create_then_get_by_pk ⟨"Ann"⟩ ⟨[], 1, [], [], true⟩ ⟨rfl, rfl, by decide⟩ rfl⟩

end SqlmodelCrud
